import Mathlib

/-!
Shallow embedding of the view-navigation state machine of BankStatementWizard
(`src/bank_statement_wizard/ui/app.py`, with the widget helpers of
`src/bank_statement_wizard/ui/menu_urwid.py`).

The urwid main loop holds a single current widget (`loop.widget`); the app
switches between a fixed set of screens built once at startup.  We embed each
screen as a constructor of `Screen` and the mutable app state
(`is_quitting`, `loop.widget`, plus the calls made to the external model
singleton `MODEL`) as the structure `AppState`.  Widget construction details
(overlays, line boxes, palettes) carry no navigation state and are not
modelled.
-/

/-- The screens the app ever assigns to `loop.widget`:
`main_view`, the quit-confirmation `exit_view`, and the three overlays pushed
by `StatementsMenu` (`launch`, `_add_statement`, `_browse_statement`). -/
inductive Screen
  | mainView
  | exitView
  | statementsMenuRoot
  | addStatementPrompt
  | browsingFile
deriving DecidableEq, Repr

/-- The mutable state of `BankStatementWizardApp`: the `is_quitting` flag and
`loop.widget`, together with the list of arguments of the calls made so far to
`MODEL.add_statement` (the external model collaborator). -/
structure AppState where
  is_quitting : Bool
  widget : Screen
  modelCalls : List String
deriving DecidableEq, Repr

/-- After `__init__`: `loop.widget = main_view`, `is_quitting = False`, and the
module-level `MODEL` has received no calls. -/
def initialState : AppState :=
  { is_quitting := false, widget := Screen.mainView, modelCalls := [] }

/-- The click handlers connected to top-menu buttons by
`create_top_menu_widgets`.  Only the Statements Menu button receives one
(`set_button_callback(statements_menu.launch)`); every other top-menu button is
built by `from_label_and_key` alone and has no connected handler. -/
inductive ButtonCallback
  | launchStatementsMenu
deriving DecidableEq, Repr

/-- `TopMenuButton` (menu_urwid.py): the wrapped button widget reduced to the
data the navigation logic reads — its label, its `key_short_cut`, and whether a
`click` handler was connected via `set_button_callback`. -/
structure TopMenuButton where
  label : String
  key_short_cut : String
  on_click : Option ButtonCallback
deriving DecidableEq, Repr

/-- `TopMenuButton.from_label_and_key`: builds the button with label
`f"{label} ({key.title()})"` and the given `key_short_cut`; no click handler is
connected.  It performs no check of any kind and always succeeds. -/
def from_label_and_key (label : String) (key : String) : TopMenuButton :=
  { label := label ++ " (" ++ key.capitalize ++ ")", key_short_cut := key, on_click := none }

/-- `TopMenuButton.set_button_callback`: `urwid.connect_signal(self.button,
"click", callback)` — records the connected handler. -/
def set_button_callback (b : TopMenuButton) (c : ButtonCallback) : TopMenuButton :=
  { b with on_click := some c }

/-- `MODEL.add_statement(path)` — the model (`BankStatementWizardModel`,
defined in `model.py`, absent from src) is an external collaborator reached
only through this call; the embedding records each invocation in order. -/
def MODEL.add_statement (s : AppState) (path : String) : AppState :=
  { s with modelCalls := s.modelCalls ++ [path] }

/-- `BankStatementWizardApp.reset_to_main_view`: `self.loop.widget = self.main_view`. -/
def reset_to_main_view (s : AppState) : AppState :=
  { s with widget := Screen.mainView }

namespace StatementsMenu

/-- `StatementsMenu.launch`: sets `loop.widget` to the "Statements Menu"
overlay (buttons: Add Statement, Remove Statement, Done). -/
def launch (s : AppState) : AppState :=
  { s with widget := Screen.statementsMenuRoot }

/-- `StatementsMenu._add_statement`: sets `loop.widget` to the "Add Statement"
overlay (buttons: Statement Type, Browse, Done). -/
def add_statement_prompt (s : AppState) : AppState :=
  { s with widget := Screen.addStatementPrompt }

/-- `StatementsMenu._browse_statement`: constructs a `FileSelector` with
`on_selected=_cb` and sets `loop.widget` to its view. -/
def browse_statement (s : AppState) : AppState :=
  { s with widget := Screen.browsingFile }

/-- `StatementsMenu._reset_loop_widget`: `self.parent().reset_to_main_view()`. -/
def reset_loop_widget (s : AppState) : AppState :=
  reset_to_main_view s

/-- The local `_cb(path)` inside `_browse_statement` (app.py):
`MODEL.add_statement(path)` then `self._reset_loop_widget()`. -/
def cb (s : AppState) (path : String) : AppState :=
  reset_loop_widget (MODEL.add_statement s path)

/-- The click handler of the "Done" button of the Statements Menu root
overlay: `lambda _: self._reset_loop_widget()`. -/
def done_click (s : AppState) : AppState :=
  reset_loop_widget s

end StatementsMenu

/-- `TopMenuButton.activate`: simulates a mouse press on the inner
`urwid.Button`, which emits its `click` signal; a connected handler runs,
otherwise the emission has no subscribers and nothing happens. -/
def TopMenuButton.activate (b : TopMenuButton) (s : AppState) : AppState :=
  match b.on_click with
  | some ButtonCallback.launchStatementsMenu => StatementsMenu.launch s
  | none => s

/-- `BankStatementWizardApp.create_top_menu_widgets`: the seven top-menu
buttons in the order of the `menu_buttons` property; only the Statements Menu
button gets a connected handler. -/
def create_top_menu_widgets : List TopMenuButton :=
  [ set_button_callback (from_label_and_key "Statements Menu" "f2") ButtonCallback.launchStatementsMenu,
    from_label_and_key "Filter Menu" "f3",
    from_label_and_key "Plot Menu" "f4",
    from_label_and_key "Export Menu" "f5",
    from_label_and_key "Search" "f6",
    from_label_and_key "Go To..." "f7",
    from_label_and_key "Done" "f8" ]

/-- The `menu_buttons` property of `BankStatementWizardApp`. -/
def menu_buttons : List TopMenuButton :=
  create_top_menu_widgets

/-- The final loop of `unhandled_input`:
`for button in self.menu_buttons: if key == button.key_short_cut: button.activate()` —
activates every button whose shortcut equals the key, in order. -/
def activate_matching (s : AppState) (key : String) : AppState :=
  menu_buttons.foldl (fun st b => if key = b.key_short_cut then b.activate st else st) s

/-- Result of one call to `unhandled_input`: either `urwid.ExitMainLoop` was
raised (the main loop unwinds) or the app continues in a new state. -/
inductive StepResult
  | exit
  | cont (s : AppState)
deriving DecidableEq, Repr

/-- `BankStatementWizardApp.unhandled_input(key)`.  Note the control flow of
the source: the two `esc` branches `return True`, and the `enter` branch
raises, but any other key — including while `is_quitting` — falls through to
the shortcut loop. -/
def unhandled_input (s : AppState) (key : String) : StepResult :=
  if s.is_quitting then
    if key = "enter" then StepResult.exit
    else if key = "esc" then
      StepResult.cont { s with is_quitting := false, widget := Screen.mainView }
    else StepResult.cont (activate_matching s key)
  else
    if key = "esc" then
      StepResult.cont { s with is_quitting := true, widget := Screen.exitView }
    else StepResult.cont (activate_matching s key)

/-- Outcome of driving the main loop over a list of key events. -/
inductive RunOutcome
  | exited (code : Nat)
  | pending (s : AppState)
deriving DecidableEq, Repr

/-- The main loop (`run` → `loop.run()`) fed a finite list of keys:
`urwid.ExitMainLoop` makes `loop.run()` return normally, `run_ui` returns, and
the process exits with status 0; remaining keys are never read. -/
def runLoop (s : AppState) (keys : List String) : RunOutcome :=
  match keys with
  | [] => RunOutcome.pending s
  | k :: ks =>
    match unhandled_input s k with
    | StepResult.exit => RunOutcome.exited 0
    | StepResult.cont s2 => runLoop s2 ks

/-- Outcome reported by a `FileSelector` interaction. -/
inductive SelectorOutcome
  | completed (path : String)
  | cancelled
deriving DecidableEq, Repr

/-- Modelled from the spec: `FileSelector` lives in `file_selector.py`, absent
from src; per the spec it "invokes `onSelected` exactly once on confirmation,
never on cancellation". -/
def FileSelector.finish (on_selected : AppState → String → AppState)
    (s : AppState) (o : SelectorOutcome) : AppState :=
  match o with
  | SelectorOutcome.completed path => on_selected s path
  | SelectorOutcome.cancelled => s

/-- The F2 → Add Statement → Browse flow: `StatementsMenu.launch`, then the
"Add Statement" button (`_add_statement`), then the "Browse" button
(`_browse_statement`, which hands `_cb` to the `FileSelector`), then the
selector finishes with outcome `o`. -/
def browse_flow (s : AppState) (o : SelectorOutcome) : AppState :=
  FileSelector.finish StatementsMenu.cb
    (StatementsMenu.browse_statement
      (StatementsMenu.add_statement_prompt (StatementsMenu.launch s))) o

/-! ## Helper lemmas -/

/-- The shortcut loop is the identity except on `"f2"`, the only key whose
button has a connected click handler. -/
theorem activate_matching_eq (s : AppState) (key : String) :
    activate_matching s key = if key = "f2" then StatementsMenu.launch s else s := by
  simp only [activate_matching, menu_buttons, create_top_menu_widgets, from_label_and_key,
    set_button_callback, List.foldl_cons, List.foldl_nil, TopMenuButton.activate, ite_self]

/-! ## Claim theorems -/

/-- C1 counterexample: open the Statements Menu (F2), begin quitting (Esc),
then cancel the quit confirmation (Esc).  The rendered screen is `mainView`,
not the `statementsMenuRoot` dialog that was current when quitting began, so
cancelling does not restore the pre-quit screen. -/
theorem c1_counterexample :
    runLoop initialState ["f2", "esc", "esc"]
        = RunOutcome.pending { is_quitting := false, widget := Screen.mainView, modelCalls := [] }
      ∧ Screen.mainView ≠ Screen.statementsMenuRoot :=
  ⟨rfl, by decide⟩

/-- C1 (amended): in every state with `is_quitting = true`, handling Esc sets
the mode back to Normal and unconditionally renders `mainView` — the code sets
`loop.widget = self.main_view`, never the screen that was current before
quitting began. -/
theorem c1_esc_restores_main_view (s : AppState) (h : s.is_quitting = true) :
    unhandled_input s "esc"
      = StepResult.cont { is_quitting := false, widget := Screen.mainView, modelCalls := s.modelCalls } := by
  obtain ⟨q, w, m⟩ := s
  cases q
  · exact Bool.noConfusion h
  · rfl

/-- C1 witness: the amended theorem applied at a concrete quitting state whose
pre-quit screen was the Statements Menu. -/
theorem c1_witness :
    unhandled_input { is_quitting := true, widget := Screen.statementsMenuRoot, modelCalls := [] } "esc"
      = StepResult.cont { is_quitting := false, widget := Screen.mainView, modelCalls := [] } :=
  c1_esc_restores_main_view
    { is_quitting := true, widget := Screen.statementsMenuRoot, modelCalls := [] } rfl

/-- C2 counterexample: while quitting, the key `"f2"` is neither Enter nor Esc,
yet handling it falls through to the shortcut loop, activates the Statements
Menu button, and replaces the screen — the state changes and the rendered
screen is no longer the quit-confirmation overlay. -/
theorem c2_counterexample :
    unhandled_input { is_quitting := true, widget := Screen.exitView, modelCalls := [] } "f2"
        = StepResult.cont { is_quitting := true, widget := Screen.statementsMenuRoot, modelCalls := [] }
      ∧ Screen.statementsMenuRoot ≠ Screen.exitView :=
  ⟨rfl, by decide⟩

/-- C2 (amended): while `is_quitting = true`, every key other than Enter, Esc
and the wired shortcut F2 leaves the state unchanged; F2 is the exception — the
shortcut loop still runs during quit confirmation and F2 replaces the screen
with the Statements Menu while the mode stays Quitting. -/
theorem c2_quitting_other_keys (s : AppState) (key : String)
    (hq : s.is_quitting = true) (h1 : key ≠ "enter") (h2 : key ≠ "esc") (h3 : key ≠ "f2") :
    unhandled_input s key = StepResult.cont s := by
  rw [unhandled_input, if_pos hq, if_neg h1, if_neg h2, activate_matching_eq, if_neg h3]

/-- C2 witness: the amended theorem applied at a concrete quitting state and
the key `"x"`. -/
theorem c2_witness :
    unhandled_input { is_quitting := true, widget := Screen.exitView, modelCalls := [] } "x"
      = StepResult.cont { is_quitting := true, widget := Screen.exitView, modelCalls := [] } :=
  c2_quitting_other_keys { is_quitting := true, widget := Screen.exitView, modelCalls := [] }
    "x" rfl (by decide) (by decide) (by decide)

/-- C3 counterexample: from `mainView`, F2 opens the Statements Menu, but F8
then leaves the Statements Menu on screen — the top-menu "Done" button is
built by `from_label_and_key` without `set_button_callback`, so activating it
emits `click` to no subscribers and nothing is popped. -/
theorem c3_counterexample :
    runLoop initialState ["f2", "f8"]
        = RunOutcome.pending { is_quitting := false, widget := Screen.statementsMenuRoot, modelCalls := [] }
      ∧ Screen.statementsMenuRoot ≠ Screen.mainView :=
  ⟨rfl, by decide⟩

/-- C3 (amended): from `mainView` in Normal mode, F2 makes the Statements Menu
root screen current; handling F8 from that state is a no-op (the global Done
button has no connected callback), and `mainView` is instead restored by the
dialog's own "Done" button, whose handler calls `_reset_loop_widget`. -/
theorem c3_f2_opens_menu_f8_is_noop :
    unhandled_input initialState "f2"
        = StepResult.cont { is_quitting := false, widget := Screen.statementsMenuRoot, modelCalls := [] }
      ∧ unhandled_input { is_quitting := false, widget := Screen.statementsMenuRoot, modelCalls := [] } "f8"
        = StepResult.cont { is_quitting := false, widget := Screen.statementsMenuRoot, modelCalls := [] }
      ∧ StatementsMenu.done_click { is_quitting := false, widget := Screen.statementsMenuRoot, modelCalls := [] }
        = { is_quitting := false, widget := Screen.mainView, modelCalls := [] } :=
  ⟨rfl, rfl, rfl⟩

/-- C4: Esc from `mainView` in Normal mode enters quit confirmation, and a
second Esc returns exactly to the initial state — mode Normal, screen
`mainView`, model untouched. -/
theorem c4_esc_esc_round_trip :
    runLoop initialState ["esc", "esc"] = RunOutcome.pending initialState :=
  rfl

/-- C5 counterexample: running the F2 → Add Statement → Browse flow to
completion with path `"/tmp/stmt.csv"` calls `MODEL.add_statement` exactly
once with that path, but the screen afterwards is `mainView`, not the
`addStatementPrompt` that was current before entering Browse — `_cb` calls
`_reset_loop_widget`, which resets to the main view. -/
theorem c5_counterexample :
    browse_flow initialState (SelectorOutcome.completed "/tmp/stmt.csv")
        = { is_quitting := false, widget := Screen.mainView, modelCalls := ["/tmp/stmt.csv"] }
      ∧ Screen.mainView ≠ Screen.addStatementPrompt :=
  ⟨rfl, by decide⟩

/-- C5 (amended): for every starting state and path, completing the
F2 → Add Statement → Browse flow with path `p` invokes `MODEL.add_statement`
exactly once with `p` (the call list grows by exactly `[p]`) and then resets
the screen to `mainView` — not to the Add Statement prompt. -/
theorem c5_browse_completed_calls_model_once (s : AppState) (path : String) :
    browse_flow s (SelectorOutcome.completed path)
      = { is_quitting := s.is_quitting, widget := Screen.mainView,
          modelCalls := s.modelCalls ++ [path] } :=
  rfl

/-- C6: when the FileSelector is cancelled, its `on_selected` callback is
never invoked, so the F2 → Add Statement → Browse flow makes no call to
`MODEL.add_statement` — the model call list is unchanged. -/
theorem c6_browse_cancelled_never_calls_model (s : AppState) :
    (browse_flow s SelectorOutcome.cancelled).modelCalls = s.modelCalls :=
  rfl

/-- C7: `urwid.ExitMainLoop` is raised exactly when `is_quitting` holds and
the key is Enter; once raised, the loop unwinds and the process exits with
status 0 without reading the remaining keys — no other key causes an exit. -/
theorem c7_exit_iff_confirming_enter (s : AppState) (key : String) (ks : List String) :
    (unhandled_input s key = StepResult.exit ↔ (s.is_quitting = true ∧ key = "enter"))
      ∧ (s.is_quitting = true → runLoop s ("enter" :: ks) = RunOutcome.exited 0) := by
  constructor
  · unfold unhandled_input
    split_ifs with h1 h2 h3 h4 <;> simp_all
  · intro hq
    simp [runLoop, unhandled_input, hq]

/-- C7 witness: in a concrete quitting state, Enter exits with status 0 and
later keys are ignored. -/
theorem c7_witness :
    (unhandled_input { is_quitting := true, widget := Screen.exitView, modelCalls := [] } "enter"
       = StepResult.exit)
      ∧ runLoop { is_quitting := true, widget := Screen.exitView, modelCalls := [] } ["enter", "esc"]
          = RunOutcome.exited 0 :=
  ⟨(c7_exit_iff_confirming_enter { is_quitting := true, widget := Screen.exitView, modelCalls := [] }
      "enter" ["esc"]).1.mpr ⟨rfl, rfl⟩,
   (c7_exit_iff_confirming_enter { is_quitting := true, widget := Screen.exitView, modelCalls := [] }
      "enter" ["esc"]).2 rfl⟩

/-- C8 counterexample: building two shortcut entries that share the key
`"f2"` succeeds and yields a table containing both entries with the duplicate
key — `from_label_and_key` performs no uniqueness check and there is no
construction-time failure. -/
theorem c8_counterexample :
    ([from_label_and_key "Statements Menu" "f2",
      from_label_and_key "Done" "f2"].map TopMenuButton.key_short_cut) = ["f2", "f2"] :=
  rfl

/-- C8 (amended): shortcut construction enforces nothing — two entries sharing
a key construct successfully and keep the same `key_short_cut` — and the table
actually built at startup has pairwise-distinct keys only because its literals
`f2` … `f8` happen to be distinct. -/
theorem c8_startup_keys_distinct_unenforced :
    List.Pairwise (fun a b => a ≠ b) (menu_buttons.map TopMenuButton.key_short_cut)
      ∧ (from_label_and_key "Statements Menu" "f2").key_short_cut
          = (from_label_and_key "Done" "f2").key_short_cut :=
  ⟨by decide, rfl⟩

/-- C9: in Normal mode, a key that is none of Esc, Enter, or a shortcut key of
the top-menu table leaves the whole state unchanged — unrecognized keys are
silent no-ops. -/
theorem c9_unrecognized_key_is_noop (s : AppState) (key : String)
    (hq : s.is_quitting = false) (h1 : key ≠ "esc") (h2 : key ≠ "enter")
    (h3 : key ∉ menu_buttons.map TopMenuButton.key_short_cut) :
    unhandled_input s key = StepResult.cont s := by
  have hf2 : key ≠ "f2" := fun hk => by subst hk; exact h3 (by decide)
  have hq' : ¬ (s.is_quitting = true) := by rw [hq]; exact fun hc => Bool.noConfusion hc
  rw [unhandled_input, if_neg hq', if_neg h1, activate_matching_eq, if_neg hf2]

/-- C9 witness: the key `"x"` in the initial state is a no-op. -/
theorem c9_witness :
    unhandled_input initialState "x" = StepResult.cont initialState :=
  c9_unrecognized_key_is_noop initialState "x" rfl (by decide) (by decide) (by decide)

/-- C10: in Normal mode, Enter falls past the quitting branch (not taken), is
not Esc, and matches no shortcut key, so handling it leaves the state
unchanged — it neither starts quit confirmation nor terminates the process. -/
theorem c10_enter_in_normal_mode_is_noop (s : AppState) (h : s.is_quitting = false) :
    unhandled_input s "enter" = StepResult.cont s := by
  have h' : ¬ (s.is_quitting = true) := by rw [h]; exact fun hc => Bool.noConfusion hc
  rw [unhandled_input, if_neg h',
    if_neg (by decide : ¬ (("enter" : String) = "esc")), activate_matching_eq,
    if_neg (by decide : ¬ (("enter" : String) = "f2"))]

/-- C10 witness: Enter in the initial state is a no-op. -/
theorem c10_witness :
    unhandled_input initialState "enter" = StepResult.cont initialState :=
  c10_enter_in_normal_mode_is_noop initialState rfl
